import Mathlib

/-!
# Verification of the artifact generation & storage pipeline

Shallow embedding of the Python repository `Marian509` (an AI room-design
backend).  The modelled modules are:

* `ai_backend/services/aws_service.py` — the S3 storage backend
  (`AWSService.delete_file`, `file_exists`, `list_files`, `delete_folder`)
  and the module-level service registry
  (`init_aws_service` / `get_aws_service` / `reset_aws_service`);
* `ai_backend/services/storage.py` — `upload_to_s3` (validation, extension
  normalisation) and `save_to_local`;
* `ai_backend/services/ai_generator.py` — `generate_room_image` (prompt
  assembly, replicate invocation, temp-file lifecycle);
* `ai_backend/api/generation.py` — the `/generate` endpoint orchestration.

The remote object store is modelled as the list of keys currently present in
the bucket, kept in S3 listing (lexicographic) order.  Only a healthy
backend is modelled: transport and permission failures of individual S3
calls are surfaced through explicit environment flags where a claim needs
them.
-/

namespace Marian

/-! ## Python string primitives

Modelled structurally over the character data so that every definition
reduces on concrete inputs. -/

/-- Python `s.split(sep)` for a one-character separator: splits at every
occurrence and keeps empty pieces, so the result is never the empty list
(`"".split(",") == [""]`). -/
def splitOnChar (sep : Char) : List Char → List (List Char)
  | [] => [[]]
  | c :: rest =>
    if c = sep then [] :: splitOnChar sep rest
    else
      match splitOnChar sep rest with
      | [] => [[c]]
      | piece :: pieces => (c :: piece) :: pieces

/-- The characters Python `str.strip()` removes: `' \t\n\r\x0b\x0c'`. -/
def pyIsSpace (c : Char) : Bool :=
  c = ' ' || c = '\t' || c = '\n' || c = '\r' ||
  c = Char.ofNat 11 || c = Char.ofNat 12

/-- Python `s.strip()`: drop whitespace from both ends. -/
def pyStrip (s : String) : String :=
  ⟨((s.data.dropWhile pyIsSpace).reverse.dropWhile pyIsSpace).reverse⟩

/-- Python `s.lower()` (ASCII range, which is all the source feeds it). -/
def pyLower (s : String) : String :=
  ⟨s.data.map Char.toLower⟩

/-- Python `s.startswith(p)`. -/
def pyStartsWith (s p : String) : Bool :=
  p.data.isPrefixOf s.data

/-- S3 key prefix match: `list_objects_v2(Prefix=p)` returns exactly the keys
that start with `p`.  Modelled on the character data of the key. -/
def keyHasPrefix (pfx key : String) : Bool :=
  pfx.data.isPrefixOf key.data

/-- The bucket: the keys currently present, in S3 listing order. -/
abbrev Bucket := List String

/-- S3 `DeleteObject`: removes the key if present.  The call succeeds
(HTTP 204) whether or not the key exists; a missing key is not an error. -/
def s3DeleteObject (st : Bucket) (key : String) : Bucket :=
  st.filter (fun k => k ≠ key)

/-- S3 `DeleteObjects` (batch delete): removes every key of the batch. -/
def s3DeleteObjects (st : Bucket) (batch : List String) : Bucket :=
  st.filter (fun k => !(batch.contains k))

/-- `AWSService.delete_file` (aws_service.py lines 192–206): issues
`delete_object` and returns `True`; `False` only on a `ClientError`, which a
healthy backend does not raise (S3 delete succeeds even for absent keys). -/
def delete_file (st : Bucket) (key : String) : Bool × Bucket :=
  (true, s3DeleteObject st key)

/-- `AWSService.file_exists` (aws_service.py lines 252–261): `head_object`
succeeds exactly when the key is present. -/
def file_exists (st : Bucket) (key : String) : Bool :=
  st.contains key

/-- `AWSService.list_files` (aws_service.py lines 208–229): one
`list_objects_v2` call with `MaxKeys=max_keys` (default 1000) — at most
`max_keys` of the keys under the prefix, no pagination. -/
def list_files (st : Bucket) (pfx : String) (maxKeys : Nat) : List String :=
  (st.filter (fun k => keyHasPrefix pfx k)).take maxKeys

/-- Fuel-indexed splitting into batches of 1000; every step consumes at
least one element, so fuel `l.length` always suffices. -/
def chunk1000Aux : Nat → List String → List (List String)
  | _, [] => []
  | 0, _ :: _ => []
  | fuel + 1, l@(_ :: _) => l.take 1000 :: chunk1000Aux fuel (l.drop 1000)

/-- The batches `objects[0:1000], objects[1000:2000], …` of the
`for i in range(0, len(objects), 1000)` loop in `delete_folder`. -/
def chunk1000 (l : List String) : List (List String) :=
  chunk1000Aux l.length l

/-- `AWSService.delete_folder` (aws_service.py lines 292–315): lists the keys
under the prefix (one call, capped at the 1000-key default), deletes them in
batches of at most 1000, and returns `True` (a success flag, not a count). -/
def delete_folder (st : Bucket) (pfx : String) : Bool × Bucket :=
  let objects := list_files st pfx 1000
  if objects.isEmpty then (true, st)
  else (true, (chunk1000 objects).foldl s3DeleteObjects st)

/-! ## Service registry (aws_service.py lines 342–368)

`_aws_service_instance` is a module-level `Optional[AWSService]`.  The
construction of `AWSService` itself (a boto3 client) is modelled as always
succeeding; a configuration is abstracted to the tuple of its four fields. -/

/-- The arguments of `init_aws_service`. -/
structure AWSConfig where
  access_key : String
  secret_key : String
  bucket : String
  region : String
deriving DecidableEq, Repr

/-- The calls that mutate `_aws_service_instance`. -/
inductive RegistryOp where
  | init (cfg : AWSConfig)
  | reset
deriving DecidableEq, Repr

/-- Effect of one registry call on `_aws_service_instance`:
`init_aws_service` stores a fresh instance (overwriting any prior one),
`reset_aws_service` sets the global back to `None`. -/
def applyRegistryOp : Option AWSConfig → RegistryOp → Option AWSConfig
  | _, .init cfg => some cfg
  | _, .reset => none

/-- The registry state after a sequence of calls, starting from the
module-load state `None`. -/
def runRegistry (ops : List RegistryOp) : Option AWSConfig :=
  ops.foldl applyRegistryOp none

/-- `get_aws_service` (aws_service.py lines 358–362): raises `RuntimeError`
when the global instance is `None`, otherwise returns it. -/
def get_aws_service (st : Option AWSConfig) : Except Unit AWSConfig :=
  match st with
  | none => .error ()
  | some s => .ok s

/-- Is this call an `init_aws_service` call? -/
def RegistryOp.isInit : RegistryOp → Bool
  | .init _ => true
  | .reset => false

/-- Is this call a `reset_aws_service` call? -/
def RegistryOp.isReset : RegistryOp → Bool
  | .init _ => false
  | .reset => true

/-- Spec-side reading of "no initialize call has taken effect since process
start or since the most recent reset()": the suffix of the call history after
the last `reset` (the whole history when there is none) contains no `init`. -/
def noInitInEffect (ops : List RegistryOp) : Bool :=
  !((ops.reverse.takeWhile (fun op => !(op.isReset))).any RegistryOp.isInit)

/-! ## Extension handling (storage.py)

`os.path.splitext(p)[1]` (posix): the extension starts at the last dot of
the basename, provided a non-dot character of the basename precedes it;
leading dots of the basename never open an extension. -/

/-- Extension of a basename, as character list:  drop the leading dots, then
everything from the last remaining dot on (empty when no dot remains). -/
def extOfBase (cs : List Char) : List Char :=
  let rest := cs.dropWhile (fun c => c = '.')
  if rest.contains '.' then
    '.' :: (rest.reverse.takeWhile (fun c => c ≠ '.')).reverse
  else []

/-- `os.path.splitext(file_path)[1]`: the extension of the part after the
last `/`. -/
def splitextExt (p : String) : String :=
  ⟨extOfBase ((splitOnChar '/' p.data).getLastD [])⟩

/-- The allow-list of storage.py line 47. -/
def allowed_extensions : List String := [".jpg", ".jpeg", ".png", ".webp"]

/-- Extension actually used by `upload_to_s3` (storage.py lines 40–50):
lower-cased, `.jpg` when missing, `.jpg` when outside the allow-list. -/
def uploadToS3Ext (file_path : String) : String :=
  let e1 := pyLower (splitextExt file_path)
  let e2 := if e1 = "" then ".jpg" else e1
  if e2 ∈ allowed_extensions then e2 else ".jpg"

/-- Extension actually used by `save_to_local` (storage.py line 204):
`os.path.splitext(file_path)[1] or ".jpg"` — only a missing extension is
replaced, nothing is lower-cased or checked against the allow-list. -/
def saveToLocalExt (file_path : String) : String :=
  let e := splitextExt file_path
  if e = "" then ".jpg" else e

/-! ## Upload validation (storage.py lines 29–37)

The local filesystem is abstracted to the size (in bytes) of each existing
path. -/

/-- `os.path.exists` / `os.path.getsize`: `some size` when the path exists. -/
abbrev FileSystem := String → Option Nat

/-- The 50 MB ceiling of storage.py line 35. -/
def maxUploadSize : Nat := 50 * 1024 * 1024

/-- Outcome of the two validation guards at the top of `upload_to_s3`. -/
inductive UploadCheck where
  | notFound   -- `FileNotFoundError` of line 31
  | tooLarge   -- `ValueError` of line 37
  | proceeds   -- neither guard fired; the upload goes ahead
deriving DecidableEq, Repr

/-- The validation prefix of `upload_to_s3` (storage.py lines 29–37):
missing path ⇒ `FileNotFoundError`; size above 50 MB ⇒ `ValueError`;
otherwise the function proceeds to the upload. -/
def uploadToS3Validate (fs : FileSystem) (file_path : String) : UploadCheck :=
  match fs file_path with
  | none => .notFound
  | some size => if size > maxUploadSize then .tooLarge else .proceeds

/-! ## Rendering client (ai_generator.py) -/

/-- `link.split('/')[-1]`: the last `/`-separated segment of a link
(`str.split` always yields at least one piece, so the default is never
used). -/
def lastSegment (link : String) : String :=
  ⟨(splitOnChar '/' link.data).getLastD []⟩

/-- The f-string of ai_generator.py lines 55–60, with its literal layout
(leading newline, 8-space indents, trailing indent). -/
def buildFullPrompt (theme prompt : String) (furniture_links : List String) :
    String :=
  "\n        Professional interior design photo, " ++ theme ++
  " style room.\n        " ++ prompt ++
  "\n        High quality, realistic lighting, 4k resolution, photorealistic.\n        Furniture placement: " ++
  String.intercalate ", " ((furniture_links.take 3).map lastSegment) ++
  "\n        "

/-- The negative prompt of ai_generator.py line 62. -/
def negativePrompt : String :=
  "blurry, distorted, cartoon, unrealistic, low quality, bad lighting"

/-- The `input` dict passed to `replicate.run` (ai_generator.py lines
67–78), minus the image file handle. -/
structure ReplicateInput where
  prompt : String
  negative_prompt : String
  num_inference_steps : Nat
  guidance_scale : ℚ
  strength : ℚ
  num_outputs : Nat
deriving DecidableEq, Repr

/-- The replicate request built by `generate_room_image`. -/
def mkReplicateInput (theme prompt : String) (furniture_links : List String) :
    ReplicateInput where
  prompt := buildFullPrompt theme prompt furniture_links
  negative_prompt := negativePrompt
  num_inference_steps := 30
  guidance_scale := 7.5
  strength := 0.6
  num_outputs := 1

/-- What `replicate.run` may hand back (ai_generator.py line 81): a single
reference or a list of references. -/
inductive ReplicateOutput where
  | single (ref : String)
  | list (refs : List String)
deriving DecidableEq, Repr

/-- `output[0] if isinstance(output, list) else output` (ai_generator.py
line 81).  `none` models the `IndexError` that `output[0]` raises on an
empty list. -/
def extractOutputUrl : ReplicateOutput → Option String
  | .single ref => some ref
  | .list refs => refs.head?

/-! ## Temporary files and the pipeline
(ai_generator.py `generate_room_image`, storage.py `upload_to_s3`,
generation.py `generate_image`)

Temporary files are tracked by integer ids: `tempfile.NamedTemporaryFile`
acquires a fresh id, `os.remove` on a temp path drops it.  The environment
fixes the outcome of every external call of one request. -/

/-- The temp files currently on disk (`live`) and the next fresh name. -/
structure TempState where
  live : List Nat
  next : Nat
deriving DecidableEq, Repr

/-- `tempfile.NamedTemporaryFile(delete=False)`: a fresh uniquely-named
file, returned to the caller together with the new state. -/
def TempState.acquire (s : TempState) : Nat × TempState :=
  (s.next, ⟨s.next :: s.live, s.next + 1⟩)

/-- `os.remove(path)` on a temp path (always wrapped in `try/except: pass`
in the source): drops the file; a missing file is silently ignored. -/
def TempState.release (s : TempState) (p : Nat) : TempState :=
  ⟨s.live.erase p, s.next⟩

/-- Fixed outcomes of the external calls made during one request. -/
structure Env where
  /-- `replicate.run`: an exception, or its return value. -/
  renderOutput : Except String ReplicateOutput
  /-- does `requests.get(output_url, timeout=60)` succeed with a 2xx? -/
  fetchOk : Bool
  /-- byte size of the downloaded generated image. -/
  fetchedSize : Nat
  /-- has `init_aws_service` been called (`get_aws_service` succeeds)? -/
  awsInitialized : Bool
  /-- does `aws_service.upload_file` return a URL (no `ClientError`,
  no `None`)? -/
  uploadOk : Bool
  /-- the URL that a successful upload returns. -/
  uploadUrl : String
deriving Repr

/-- Failure cause inside `generate_room_image` (all re-raised at line 110 as
one `Exception("Failed to generate image: …")`; the constructor records
which branch raised). -/
inductive RenderError where
  | renderRaised (cause : String)  -- `replicate.run` raised
  | emptyOutput                    -- `output[0]` on an empty list
  | fetchFailed                    -- download error / non-2xx
deriving DecidableEq, Repr

/-- `generate_room_image` (ai_generator.py lines 23–110): stage the room
bytes to a temp file, call replicate, pick the output URL, download it to a
second temp file, remove the input temp file, and return the generated
path.  On any exception the input temp file is removed before re-raising;
the output temp file (when it exists) is returned to the caller, never
removed here. -/
def generate_room_image (env : Env) (s : TempState) :
    Except RenderError Nat × TempState :=
  let (roomPath, s1) := s.acquire
  match env.renderOutput with
  | .error cause => (.error (.renderRaised cause), s1.release roomPath)
  | .ok out =>
    match extractOutputUrl out with
    | none => (.error .emptyOutput, s1.release roomPath)
    | some _url =>
      if env.fetchOk then
        let (genPath, s2) := s1.acquire
        (.ok genPath, s2.release roomPath)
      else
        (.error .fetchFailed, s1.release roomPath)

/-- Failure cause inside `upload_to_s3` (storage.py lines 26–99). -/
inductive StoreError where
  | fileMissing      -- `FileNotFoundError` (line 31)
  | tooLarge         -- `ValueError` (line 37)
  | notInitialized   -- `get_aws_service` raised (lines 60–64)
  | uploadFailed     -- `upload_file` returned `None` / `ClientError`
deriving DecidableEq, Repr

/-- `upload_to_s3` applied to the generated temp file (storage.py lines
26–99): validate existence and size, fetch the service, upload, and only
after a successful upload remove the local temp file.  Every error path
raises without removing it. -/
def uploadToS3Temp (env : Env) (p : Nat) (s : TempState) :
    Except StoreError String × TempState :=
  if p ∈ s.live then
    if env.fetchedSize > maxUploadSize then (.error .tooLarge, s)
    else if env.awsInitialized then
      if env.uploadOk then (.ok env.uploadUrl, s.release p)
      else (.error .uploadFailed, s)
    else (.error .notInitialized, s)
  else (.error .fileMissing, s)

/-! ## The `/generate` endpoint (generation.py lines 12–91) -/

/-- One request to the endpoint.  The image upload is abstracted to its
declared content type and byte count. -/
structure GenRequest where
  contentType : String
  imageSize : Nat
  prompt : String
  theme : String
  /-- the raw comma-separated `furniture_links` form field. -/
  furniture_links : String
deriving DecidableEq, Repr

/-- `[link.strip() for link in furniture_links.split(",") if link.strip()]`
(generation.py line 52). -/
def parseLinks (furniture_links : String) : List String :=
  ((splitOnChar ',' furniture_links.data).map fun cs => (⟨cs⟩ : String)).filterMap
    fun link =>
      let t := pyStrip link
      if t ≠ "" then some t else none

/-- What the endpoint returns: a success body, an `HTTPException(400, …)`
from validation, or the catch-all `HTTPException(500, …)`. -/
inductive HTTPResult where
  | ok (url : String) (furnitureCount : Nat)
  | clientError (detail : String)
  | serverError
deriving DecidableEq, Repr

/-- Everything observable about one endpoint call: the response, the temp
files still on disk, and whether the render / store steps were reached. -/
structure RunTrace where
  result : HTTPResult
  temps : TempState
  renderInvoked : Bool
  storeInvoked : Bool
deriving DecidableEq, Repr

/-- `generate_image` (generation.py lines 12–91): content-type check, 10 MB
size check, furniture-link parsing — each a 400 before any staging — then
`generate_room_image`, then `upload_to_s3`; any exception from those two
becomes a 500. -/
def generate_image (env : Env) (req : GenRequest) (s : TempState) :
    RunTrace :=
  if !(pyStartsWith req.contentType "image/") then
    ⟨.clientError "Invalid file type. Please upload an image (JPEG/PNG)",
      s, false, false⟩
  else if req.imageSize > 10 * 1024 * 1024 then
    ⟨.clientError "Image too large. Maximum size is 10MB", s, false, false⟩
  else
    let links := parseLinks req.furniture_links
    if links.isEmpty then
      ⟨.clientError "Please provide at least one furniture link",
        s, false, false⟩
    else
      match generate_room_image env s with
      | (.error _, s1) => ⟨.serverError, s1, true, false⟩
      | (.ok genPath, s1) =>
        match uploadToS3Temp env genPath s1 with
        | (.error _, s2) => ⟨.serverError, s2, true, true⟩
        | (.ok url, s2) => ⟨.ok url links.length, s2, true, true⟩

/-! ## Derived predicates and concrete fixtures -/

/-- Did the external service hand back something `output[0] … else output`
can take a reference from? -/
def ReplicateOutput.nonemptyResult : ReplicateOutput → Prop
  | .single _ => True
  | .list refs => refs ≠ []

/-- Did the endpoint answer with an `HTTPException(400, …)`? -/
def HTTPResult.isValidationError : HTTPResult → Bool
  | .clientError _ => true
  | _ => false

/-- Do all three request-validation guards of the endpoint pass? -/
def validationOk (req : GenRequest) : Bool :=
  pyStartsWith req.contentType "image/" &&
  decide (req.imageSize ≤ 10 * 1024 * 1024) &&
  !(parseLinks req.furniture_links).isEmpty

/-- Do the render and fetch stages succeed: `replicate.run` returns, a
reference can be extracted, and the download comes back 2xx? -/
def renderFetchOk (env : Env) : Bool :=
  (match env.renderOutput with
   | .ok out => (extractOutputUrl out).isSome
   | .error _ => false) && env.fetchOk

/-- Does the store stage succeed: generated file within the 50 MB ceiling,
service registry initialised, and the S3 upload returns a URL? -/
def storeStageOk (env : Env) : Bool :=
  decide (env.fetchedSize ≤ maxUploadSize) && env.awsInitialized &&
  env.uploadOk

/-- A run in which render and fetch succeed and only the S3 upload fails. -/
def envStoreFail : Env where
  renderOutput := .ok (.list ["https://render/out.jpg"])
  fetchOk := true
  fetchedSize := 1000
  awsInitialized := true
  uploadOk := false
  uploadUrl := ""

/-- A fully successful run environment. -/
def envAllOk : Env where
  renderOutput := .ok (.list ["https://render/out.jpg"])
  fetchOk := true
  fetchedSize := 1000
  awsInitialized := true
  uploadOk := true
  uploadUrl := "https://bucket.s3.us-east-1.amazonaws.com/generated/x.jpg"

/-- A well-formed request (the end-to-end scenario of the spec). -/
def reqOk : GenRequest where
  contentType := "image/jpeg"
  imageSize := 100
  prompt := "sofa on left wall"
  theme := "MINIMAL SCANDINAVIAN"
  furniture_links := "https://x/sofa,https://x/table"

/-- 1500 pairwise-distinct keys: key `i` is `i` repetitions of `a`. -/
def stC3 : Bucket :=
  (List.range 1500).map fun i => ⟨List.replicate i 'a'⟩

/-- A request whose furniture-link field holds only blanks and commas. -/
def reqBlankLinks : GenRequest :=
  { reqOk with furniture_links := " , ,  " }

/-- A run in which the external service answers with an empty list. -/
def envEmptyList : Env :=
  { envAllOk with renderOutput := .ok (.list []) }

/-! ## Helper lemmas -/

/-- The empty prefix matches every key. -/
theorem keyHasPrefix_empty (k : String) : keyHasPrefix "" k = true := by
  cases k with
  | mk d => cases d <;> rfl

/-- A key never survives `delete_object` on itself. -/
theorem mem_s3DeleteObject_self (st : Bucket) (key : String) :
    key ∉ s3DeleteObject st key := by
  intro h
  simp [s3DeleteObject, List.mem_filter] at h

/-- On a duplicate-free bucket, deleting the batch `l.take n` out of `l`
leaves exactly `l.drop n`. -/
theorem filter_not_contains_take (l : List String) (n : Nat)
    (hnd : l.Nodup) :
    l.filter (fun k => !((l.take n).contains k)) = l.drop n := by
  have h := List.take_append_drop n l
  set tk := l.take n with htk
  set dr := l.drop n with hdr
  have hdisj : List.Disjoint tk dr := by
    have hnd2 : (tk ++ dr).Nodup := h ▸ hnd
    exact (List.nodup_append.mp hnd2).2.2
  have h1 : tk.filter (fun k => !(tk.contains k)) = [] := by
    rw [List.filter_eq_nil_iff]
    intro a ha
    simp [List.elem_eq_mem, ha]
  have h2 : dr.filter (fun k => !(tk.contains k)) = dr := by
    rw [List.filter_eq_self]
    intro a ha
    have hni : a ∉ tk := fun hmem => hdisj hmem ha
    simp [List.elem_eq_mem, hni]
  rw [← h, List.filter_append, h1, h2, List.nil_append]

/-- A nonempty list of at most 1000 elements is a single batch. -/
theorem chunk1000_single (l : List String) (hne : l ≠ [])
    (hle : l.length ≤ 1000) : chunk1000 l = [l] := by
  cases l with
  | nil => exact absurd rfl hne
  | cons a t =>
    show chunk1000Aux (a :: t).length (a :: t) = [a :: t]
    rw [List.length_cons]
    show (a :: t).take 1000 :: chunk1000Aux t.length ((a :: t).drop 1000) =
      [a :: t]
    rw [List.take_of_length_le hle, List.drop_eq_nil_of_le hle]
    cases t <;> rfl

/-- What `delete_folder` does to a duplicate-free bucket whose keys all
carry the prefix: the first 1000 listed keys go, the rest stay. -/
theorem delete_folder_drop (st : Bucket) (pfx : String) (hnd : st.Nodup)
    (hall : ∀ k ∈ st, keyHasPrefix pfx k = true) :
    delete_folder st pfx = (true, st.drop 1000) := by
  have hfilter : st.filter (fun k => keyHasPrefix pfx k) = st :=
    List.filter_eq_self.mpr hall
  cases hst : st with
  | nil => simp [delete_folder, list_files, hst ▸ hfilter]
  | cons a t =>
    have hobj : list_files st pfx 1000 = st.take 1000 := by
      rw [list_files, hfilter]
    have hne : st.take 1000 ≠ [] := by
      rw [hst]
      cases t <;> simp [List.take]
    have hlen : (st.take 1000).length ≤ 1000 := by
      simp [List.length_take]
    rw [← hst]
    rw [delete_folder, hobj]
    rw [if_neg (by simpa [List.isEmpty_iff] using hne)]
    rw [chunk1000_single _ hne hlen]
    rw [List.foldl_cons, List.foldl_nil, s3DeleteObjects,
      filter_not_contains_take st 1000 hnd]

/-- `uploadToS3Ext` with its let-bindings spelled out. -/
theorem uploadToS3Ext_eq (p : String) :
    uploadToS3Ext p =
      if (if pyLower (splitextExt p) = "" then ".jpg"
          else pyLower (splitextExt p)) ∈ allowed_extensions
      then (if pyLower (splitextExt p) = "" then ".jpg"
            else pyLower (splitextExt p))
      else ".jpg" := rfl

/-- The 1500 fixture keys are pairwise distinct. -/
theorem stC3_nodup : stC3.Nodup := by
  refine List.Nodup.map ?_ (List.nodup_range 1500)
  intro i j hij
  have h2 : List.replicate i 'a' = List.replicate j 'a' :=
    congrArg String.data hij
  simpa using congrArg List.length h2

/-- There are 1500 fixture keys. -/
theorem stC3_length : stC3.length = 1500 := by
  simp [stC3]

/-! ## The claims -/

/-- **C2, counterexample.**  Deleting a key whose object does not exist
returns `True`, not `False`: `delete_object` succeeds whether or not the
key exists, and `delete_file` only answers `False` on a `ClientError`. -/
theorem delete_absent_key_returns_true :
    file_exists [] "generated/x.jpg" = false ∧
    (delete_file [] "generated/x.jpg").1 = true := by
  constructor <;> rfl

/-- **C2, amended.**  `delete_file` is idempotent and total: it never
raises, it returns `True` for existing and for absent keys alike, and after
a delete `file_exists` on the same key answers `False`. -/
theorem delete_file_idempotent_total (st : Bucket) (key : String) :
    (delete_file st key).1 = true ∧
    file_exists (delete_file st key).2 key = false ∧
    delete_file (delete_file st key).2 key = delete_file st key := by
  refine ⟨rfl, ?_, ?_⟩
  · have h := mem_s3DeleteObject_self st key
    simp only [file_exists, delete_file]
    simp [List.elem_eq_mem, h]
  · simp only [delete_file, Prod.mk.injEq, true_and, s3DeleteObject]
    rw [List.filter_eq_self]
    intro a ha
    exact (List.mem_filter.mp ha).2

/-- **C3, counterexample.**  A prefix holding 1500 objects: `delete_folder`
lists only the first 1000 (the `list_files` cap) and removes just those,
leaving 500 behind — and its return value is the Boolean `true`, not the
count. -/
theorem delete_folder_1500_removes_1000 :
    stC3.length = 1500 ∧
    (∀ k ∈ stC3, keyHasPrefix "" k = true) ∧
    delete_folder stC3 "" = (true, stC3.drop 1000) ∧
    (delete_folder stC3 "").2.length = 500 := by
  refine ⟨stC3_length, fun k _ => keyHasPrefix_empty k, ?_, ?_⟩
  · exact delete_folder_drop stC3 "" stC3_nodup
      (fun k _ => keyHasPrefix_empty k)
  · rw [delete_folder_drop stC3 "" stC3_nodup
      (fun k _ => keyHasPrefix_empty k)]
    simp [stC3]

/-- **C3, amended.**  On a duplicate-free bucket whose keys all carry the
prefix, `delete_folder` removes exactly the first 1000 listed keys (all of
them when there are at most 1000, because the single `list_objects_v2` call
is capped at 1000 keys) and returns the Boolean success flag `true`, never
a count. -/
theorem delete_folder_caps_at_1000 (st : Bucket) (pfx : String)
    (hnd : st.Nodup) (hall : ∀ k ∈ st, keyHasPrefix pfx k = true) :
    delete_folder st pfx = (true, st.drop 1000) :=
  delete_folder_drop st pfx hnd hall

/-- **C3, witness.**  The amended behaviour at a concrete two-key bucket:
both keys are under the prefix, both are removed, and `true` is returned. -/
theorem delete_folder_caps_at_1000_witness :
    delete_folder ["g/a.jpg", "g/b.jpg"] "g/" = (true, []) :=
  delete_folder_caps_at_1000 ["g/a.jpg", "g/b.jpg"] "g/" (by decide)
    (by decide)

/-- **C4, counterexample.**  `save_to_local` keeps an extension that is
outside the allow-list: a `.gif` source is persisted as `.gif`, so the
claim fails for the local-storage persist operation. -/
theorem save_to_local_keeps_gif :
    saveToLocalExt "room.gif" = ".gif" ∧
    ".gif" ∉ allowed_extensions := by
  constructor
  · rfl
  · decide

/-- **C4, amended.**  The remote persist (`upload_to_s3`) normalises as the
claim says: the persisted extension is always in the allow-list, and any
extension whose lower-casing is outside it — or a missing one — becomes
`.jpg`.  The local persist (`save_to_local`) only substitutes `.jpg` for a
missing extension and otherwise keeps the source extension verbatim, with
no allow-list check and no lower-casing. -/
theorem extension_normalisation (p : String) :
    uploadToS3Ext p ∈ allowed_extensions ∧
    (pyLower (splitextExt p) ∉ allowed_extensions → uploadToS3Ext p = ".jpg") ∧
    (splitextExt p = "" → saveToLocalExt p = ".jpg") ∧
    (splitextExt p ≠ "" → saveToLocalExt p = splitextExt p) := by
  refine ⟨?_, ?_, ?_, ?_⟩
  · by_cases he : pyLower (splitextExt p) = ""
    · rw [uploadToS3Ext_eq, he]
      decide
    · by_cases hm : pyLower (splitextExt p) ∈ allowed_extensions
      · rw [uploadToS3Ext_eq, if_neg he, if_pos hm]
        exact hm
      · rw [uploadToS3Ext_eq, if_neg he, if_neg hm]
        decide
  · intro hout
    by_cases he : pyLower (splitextExt p) = ""
    · rw [uploadToS3Ext_eq, he]
      decide
    · rw [uploadToS3Ext_eq, if_neg he, if_neg hout]
  · intro h
    simp [saveToLocalExt, h]
  · intro h
    simp [saveToLocalExt, h]

/-- **C4, witness.**  The amended behaviour at concrete inputs: an
upper-case `.GIF` source is uploaded as `.jpg`, an extension-less source is
saved locally as `.jpg`, and a `.gif` source is saved locally as `.gif`. -/
theorem extension_normalisation_witness :
    uploadToS3Ext "room.GIF" = ".jpg" ∧
    saveToLocalExt "room" = ".jpg" ∧
    saveToLocalExt "room.gif" = ".gif" :=
  ⟨(extension_normalisation "room.GIF").2.1 (by decide),
   (extension_normalisation "room").2.2.1 (by decide),
   (extension_normalisation "room.gif").2.2.2 (by decide)⟩

/-- **C5 (confirmed).**  `upload_to_s3`'s validation prefix: a missing
source path fails with `FileNotFoundError`, a size above the 50 MB ceiling
fails with `ValueError`, and a path that exists with size at most 50 MB
takes neither error branch and proceeds to the upload. -/
theorem upload_validation (fs : FileSystem) (p : String) :
    (fs p = none → uploadToS3Validate fs p = .notFound) ∧
    (∀ n, fs p = some n → n > maxUploadSize →
      uploadToS3Validate fs p = .tooLarge) ∧
    (∀ n, fs p = some n → n ≤ maxUploadSize →
      uploadToS3Validate fs p = .proceeds) := by
  refine ⟨?_, ?_, ?_⟩
  · intro h
    rw [uploadToS3Validate, h]
  · intro n h hgt
    rw [uploadToS3Validate, h]
    simp [hgt]
  · intro n h hle
    rw [uploadToS3Validate, h]
    simp [Nat.not_lt.mpr hle]

/-- **C5, witness.**  The three branches at concrete filesystems: a missing
path, a 51 MB file, and a 5-byte file. -/
theorem upload_validation_witness :
    uploadToS3Validate (fun _ => none) "gone.jpg" = .notFound ∧
    uploadToS3Validate (fun _ => some (51 * 1024 * 1024)) "big.jpg" =
      .tooLarge ∧
    uploadToS3Validate (fun _ => some 5) "ok.jpg" = .proceeds :=
  ⟨(upload_validation (fun _ => none) "gone.jpg").1 rfl,
   (upload_validation (fun _ => some (51 * 1024 * 1024)) "big.jpg").2.1
     (51 * 1024 * 1024) rfl (by decide),
   (upload_validation (fun _ => some 5) "ok.jpg").2.2 5 rfl (by decide)⟩

/-- **C6 (confirmed).**  The client accepts both result shapes of the
external service: a single reference is used as is, and from a (nonempty)
list the first element is selected. -/
theorem output_reference_selection (r : String) (rs : List String) :
    extractOutputUrl (.single r) = some r ∧
    extractOutputUrl (.list (r :: rs)) = some r :=
  ⟨rfl, rfl⟩

/-- **C7 (confirmed).**  The synthesis prompt is the fixed style preamble
naming the theme, the caller's free text, the fixed quality/lighting
qualifier, and a placement hint joining the last path segments of at most
the first 3 furniture links; the request carries the fixed negative prompt,
30 inference steps, guidance scale 7.5, denoising strength 0.6 and 1
output.  Links beyond the third never change the request. -/
theorem replicate_request_assembly (theme prompt : String)
    (links : List String) :
    (mkReplicateInput theme prompt links).prompt =
      "\n        Professional interior design photo, " ++ theme ++
      " style room.\n        " ++ prompt ++
      "\n        High quality, realistic lighting, 4k resolution, photorealistic.\n        Furniture placement: " ++
      String.intercalate ", " ((links.take 3).map lastSegment) ++
      "\n        " ∧
    mkReplicateInput theme prompt (links.take 3) =
      mkReplicateInput theme prompt links ∧
    (mkReplicateInput theme prompt links).negative_prompt =
      "blurry, distorted, cartoon, unrealistic, low quality, bad lighting" ∧
    (mkReplicateInput theme prompt links).num_inference_steps = 30 ∧
    (mkReplicateInput theme prompt links).guidance_scale = 7.5 ∧
    (mkReplicateInput theme prompt links).guidance_scale = 15 / 2 ∧
    (mkReplicateInput theme prompt links).strength = 0.6 ∧
    (mkReplicateInput theme prompt links).strength = 3 / 5 ∧
    (mkReplicateInput theme prompt links).num_outputs = 1 := by
  refine ⟨rfl, ?_, rfl, rfl, rfl, ?_, rfl, ?_, rfl⟩
  · simp [mkReplicateInput, buildFullPrompt, List.take_take]
  · show (7.5 : ℚ) = 15 / 2
    norm_num
  · show (0.6 : ℚ) = 3 / 5
    norm_num

/-- **C8 (confirmed).**  The registry holds at most one instance (an
`Option`-typed global): `init_aws_service` stores a fresh instance over any
prior one, `reset_aws_service` clears the slot, and `get_aws_service`
raises `RuntimeError` exactly when no `init` has taken effect since module
load or since the most recent `reset`. -/
theorem registry_lifecycle :
    (∀ st cfg, applyRegistryOp st (.init cfg) = some cfg) ∧
    (∀ st, applyRegistryOp st .reset = none) ∧
    (∀ ops, get_aws_service (runRegistry ops) = .error () ↔
      noInitInEffect ops = true) := by
  refine ⟨fun _ _ => rfl, fun _ => rfl, ?_⟩
  intro ops
  induction ops using List.reverseRecOn with
  | nil => simp [runRegistry, get_aws_service, noInitInEffect]
  | append_singleton ops op ih =>
    cases op with
    | init cfg =>
      simp [runRegistry, List.foldl_append, applyRegistryOp,
        get_aws_service, noInitInEffect, List.reverse_append,
        RegistryOp.isReset, RegistryOp.isInit]
    | reset =>
      simp [runRegistry, List.foldl_append, applyRegistryOp,
        get_aws_service, noInitInEffect, List.reverse_append,
        RegistryOp.isReset]

/-- Any run with a false validation predicate is turned away with a 400
before staging: the temp state is untouched and neither stage runs. -/
theorem generate_image_reject (env : Env) (req : GenRequest) (s : TempState)
    (h : validationOk req = false) :
    (generate_image env req s).result.isValidationError = true ∧
    (generate_image env req s).temps = s ∧
    (generate_image env req s).renderInvoked = false ∧
    (generate_image env req s).storeInvoked = false := by
  by_cases h1 : pyStartsWith req.contentType "image/"
  · by_cases h2 : req.imageSize ≤ 10 * 1024 * 1024
    · have h3 : parseLinks req.furniture_links = [] := by
        simp [validationOk, h1, h2] at h
        exact h
      simp [generate_image, h1, Nat.not_lt.mpr h2, h3,
        HTTPResult.isValidationError]
    · have hgt : req.imageSize > 10 * 1024 * 1024 := Nat.gt_of_not_le h2
      simp [generate_image, h1, hgt, HTTPResult.isValidationError]
  · simp [generate_image, h1, HTTPResult.isValidationError]

/-- Once validation passes, the endpoint is exactly the two-stage pipeline:
`generate_room_image` then `upload_to_s3`. -/
theorem generate_image_pipeline (env : Env) (req : GenRequest)
    (s : TempState) (h : validationOk req = true) :
    generate_image env req s =
      match generate_room_image env s with
      | (.error _, s1) => ⟨.serverError, s1, true, false⟩
      | (.ok genPath, s1) =>
        match uploadToS3Temp env genPath s1 with
        | (.error _, s2) => ⟨.serverError, s2, true, true⟩
        | (.ok url, s2) =>
          ⟨.ok url (parseLinks req.furniture_links).length, s2, true,
            true⟩ := by
  have h1 : pyStartsWith req.contentType "image/" = true := by
    simp [validationOk] at h
    exact h.1.1
  have h2 : req.imageSize ≤ 10 * 1024 * 1024 := by
    simp [validationOk] at h
    exact h.1.2
  have h3 : (parseLinks req.furniture_links).isEmpty = false := by
    simp only [validationOk, Bool.and_eq_true, Bool.not_eq_true'] at h
    exact h.2
  simp [generate_image, h1, Nat.not_lt.mpr h2, h3]

/-- How `generate_room_image` runs from a clean temp state: every failing
stage releases the staged input and leaves no temp file; success leaves
exactly the generated output file (id 1) for the caller. -/
theorem generate_room_image_run (env : Env) :
    (renderFetchOk env = false →
      ∃ e, generate_room_image env ⟨[], 0⟩ = (.error e, ⟨[], 1⟩)) ∧
    (renderFetchOk env = true →
      generate_room_image env ⟨[], 0⟩ = (.ok 1, ⟨[1], 2⟩)) := by
  constructor
  · intro h
    rcases henv : env.renderOutput with e | out
    · exact ⟨.renderRaised e,
        by simp [generate_room_image, henv, TempState.acquire,
          TempState.release]⟩
    · rcases hext : extractOutputUrl out with _ | url
      · exact ⟨.emptyOutput,
          by simp [generate_room_image, henv, hext, TempState.acquire,
            TempState.release]⟩
      · have hf : env.fetchOk = false := by
          simp [renderFetchOk, henv, hext] at h
          exact h
        exact ⟨.fetchFailed,
          by simp [generate_room_image, henv, hext, hf, TempState.acquire,
            TempState.release]⟩
  · intro h
    rcases henv : env.renderOutput with e | out
    · simp [renderFetchOk, henv] at h
    · rcases hext : extractOutputUrl out with _ | url
      · simp [renderFetchOk, henv, hext] at h
      · have hf : env.fetchOk = true := by
          simp [renderFetchOk, henv, hext] at h
          exact h
        simp [generate_room_image, henv, hext, hf, TempState.acquire,
          TempState.release]

/-- How `upload_to_s3` treats the generated temp file: any failing branch
(50 MB ceiling, uninitialised registry, failed upload) raises without
removing it; only a successful upload removes it. -/
theorem uploadToS3Temp_run (env : Env) :
    (storeStageOk env = false →
      ∃ e, uploadToS3Temp env 1 ⟨[1], 2⟩ = (.error e, ⟨[1], 2⟩)) ∧
    (storeStageOk env = true →
      uploadToS3Temp env 1 ⟨[1], 2⟩ = (.ok env.uploadUrl, ⟨[], 2⟩)) := by
  constructor
  · intro h
    by_cases hsz : env.fetchedSize ≤ maxUploadSize
    · by_cases hai : env.awsInitialized
      · have huo : env.uploadOk = false := by
          simp [storeStageOk, hsz, hai] at h
          exact h
        exact ⟨.uploadFailed,
          by simp [uploadToS3Temp, Nat.not_lt.mpr hsz, hai, huo]⟩
      · exact ⟨.notInitialized,
          by simp [uploadToS3Temp, Nat.not_lt.mpr hsz,
            Bool.not_eq_true _ ▸ hai]⟩
    · exact ⟨.tooLarge, by simp [uploadToS3Temp, Nat.gt_of_not_le hsz]⟩
  · intro h
    have hsz : env.fetchedSize ≤ maxUploadSize := by
      simp [storeStageOk] at h
      exact h.1.1
    have hai : env.awsInitialized = true := by
      simp [storeStageOk] at h
      exact h.1.2
    have huo : env.uploadOk = true := by
      simp [storeStageOk] at h
      exact h.2
    simp [uploadToS3Temp, Nat.not_lt.mpr hsz, hai, huo, TempState.release]

/-- **C9 (confirmed).**  A furniture-link list that is empty once entries
are stripped and blanks dropped is rejected with a 400 validation error
before input staging: the temp state is untouched and neither the render
nor the store step is ever invoked. -/
theorem blank_links_rejected (env : Env) (req : GenRequest) (s : TempState)
    (h : parseLinks req.furniture_links = []) :
    (generate_image env req s).result.isValidationError = true ∧
    (generate_image env req s).temps = s ∧
    (generate_image env req s).renderInvoked = false ∧
    (generate_image env req s).storeInvoked = false := by
  have hv : validationOk req = false := by
    simp [validationOk, h]
  exact generate_image_reject env req s hv

/-- **C9, witness.**  The all-blank link field `" , ,  "`. -/
theorem blank_links_rejected_witness :
    (generate_image envAllOk reqBlankLinks ⟨[], 0⟩).result.isValidationError
      = true ∧
    (generate_image envAllOk reqBlankLinks ⟨[], 0⟩).temps = ⟨[], 0⟩ ∧
    (generate_image envAllOk reqBlankLinks ⟨[], 0⟩).renderInvoked = false ∧
    (generate_image envAllOk reqBlankLinks ⟨[], 0⟩).storeInvoked = false :=
  blank_links_rejected envAllOk reqBlankLinks ⟨[], 0⟩ (by decide)

/-- **C10 (confirmed).**  The first-element selection is unguarded: an
empty list from the service makes `output[0]` raise (surfaced as the
render-stage failure, with the staged input released), and only when a
returned list is nonempty (or the result is a single reference) is that
error branch unreachable. -/
theorem empty_output_list_raises (env : Env) (s : TempState) :
    (env.renderOutput = .ok (.list []) →
      generate_room_image env s = (.error .emptyOutput, ⟨s.live, s.next + 1⟩)) ∧
    (∀ out, env.renderOutput = .ok out → out.nonemptyResult →
      (generate_room_image env s).1 ≠ .error .emptyOutput) := by
  constructor
  · intro h
    simp [generate_room_image, h, extractOutputUrl, TempState.acquire,
      TempState.release]
  · intro out h hne
    cases out with
    | single r =>
      simp only [generate_room_image, h, extractOutputUrl]
      split <;> simp
    | list refs =>
      cases refs with
      | nil => exact absurd rfl hne
      | cons r rs =>
        simp only [generate_room_image, h, extractOutputUrl, List.head?]
        split <;> simp

/-- **C10, witness.**  An empty-list answer raises on the concrete clean
start state; the one-element-list answer of `envAllOk` does not. -/
theorem empty_output_list_raises_witness :
    generate_room_image envEmptyList ⟨[], 0⟩ =
      (.error .emptyOutput, ⟨[], 1⟩) ∧
    (generate_room_image envAllOk ⟨[], 0⟩).1 ≠ .error .emptyOutput :=
  ⟨(empty_output_list_raises envEmptyList ⟨[], 0⟩).1 rfl,
   (empty_output_list_raises envAllOk ⟨[], 0⟩).2
     (.list ["https://render/out.jpg"]) rfl
     (by simp [ReplicateOutput.nonemptyResult])⟩

/-- **C1, counterexample.**  A run that fails only at the storage stage:
the call starts with no temp files but returns (as `Failed(StoreFailed)`,
here the 500) with the generated output temp file (id 1) still on disk —
`upload_to_s3` raises without removing it and the endpoint has no cleanup
handler. -/
theorem store_failure_leaks_generated_file :
    (generate_image envStoreFail reqOk ⟨[], 0⟩).result = .serverError ∧
    (generate_image envStoreFail reqOk ⟨[], 0⟩).temps.live = [1] := by
  constructor <;> rfl

/-- **C1, amended.**  Render-stage and fetch-stage failures (and rejected
requests) do release every staged temp file before the failure propagates,
and a fully successful run ends clean; but a storage-stage failure leaks
exactly the generated output staged file. -/
theorem temp_cleanup_by_stage (env : Env) (req : GenRequest) :
    (validationOk req = false →
      (generate_image env req ⟨[], 0⟩).temps.live = []) ∧
    (renderFetchOk env = false →
      (generate_image env req ⟨[], 0⟩).temps.live = []) ∧
    (validationOk req = true → renderFetchOk env = true →
      storeStageOk env = false →
      (generate_image env req ⟨[], 0⟩).temps.live = [1]) ∧
    (validationOk req = true → renderFetchOk env = true →
      storeStageOk env = true →
      (generate_image env req ⟨[], 0⟩).temps.live = []) := by
  refine ⟨?_, ?_, ?_, ?_⟩
  · intro hv
    rw [(generate_image_reject env req ⟨[], 0⟩ hv).2.1]
  · intro hrf
    by_cases hv : validationOk req
    · obtain ⟨e, heq⟩ := (generate_room_image_run env).1 hrf
      rw [generate_image_pipeline env req ⟨[], 0⟩ hv, heq]
    · rw [(generate_image_reject env req ⟨[], 0⟩
        (Bool.not_eq_true _ ▸ hv)).2.1]
  · intro hv hrf hst
    obtain ⟨e, heq⟩ := (uploadToS3Temp_run env).1 hst
    rw [generate_image_pipeline env req ⟨[], 0⟩ hv,
      (generate_room_image_run env).2 hrf]
    simp [heq]
  · intro hv hrf hst
    rw [generate_image_pipeline env req ⟨[], 0⟩ hv,
      (generate_room_image_run env).2 hrf]
    simp [(uploadToS3Temp_run env).2 hst]

/-- **C1, witness.**  The amended behaviour at concrete runs: the
store-failure environment leaks the generated file, the all-success
environment ends clean. -/
theorem temp_cleanup_by_stage_witness :
    (generate_image envStoreFail reqOk ⟨[], 0⟩).temps.live = [1] ∧
    (generate_image envAllOk reqOk ⟨[], 0⟩).temps.live = [] :=
  ⟨(temp_cleanup_by_stage envStoreFail reqOk).2.2.1 (by decide) (by decide)
     (by decide),
   (temp_cleanup_by_stage envAllOk reqOk).2.2.2 (by decide) (by decide)
     (by decide)⟩

end Marian
